import Mathlib

/-!
Shallow embedding of the contract-check core of the repository
(`regression/api_contract.py`, `regression/auth.py`,
`regression/schema_validation.py`).

JSON payloads (and YAML-decoded contract documents) are modelled by the
inductive `Json`.  Python's `None` and JSON `null` are one and the same
Python value, so `Json.null` plays both roles, exactly as in the source:
`dict.get(k)` on a missing key returns `None`, which is indistinguishable
from a stored JSON `null`.

Network and filesystem effects (HTTP dispatch, the OAuth2 token endpoint,
schema loading) are passed in as oracle functions; everything else is a
direct translation of the Python source.  Machine floats are modelled by
`ℚ`.
-/

set_option maxHeartbeats 1000000

/-- JSON / decoded-YAML values, with Python's `None`–`null` conflation.
Objects are insertion-ordered association lists with string keys, as
Python dicts are. -/
inductive Json where
  | null
  | bool (b : Bool)
  | num (q : ℚ)
  | str (s : String)
  | arr (elems : List Json)
  | obj (fields : List (String × Json))
deriving Repr, Inhabited

mutual

def Json.decEq : (a b : Json) → Decidable (a = b)
  | .null, .null => .isTrue rfl
  | .null, .bool _ => .isFalse nofun
  | .null, .num _ => .isFalse nofun
  | .null, .str _ => .isFalse nofun
  | .null, .arr _ => .isFalse nofun
  | .null, .obj _ => .isFalse nofun
  | .bool _, .null => .isFalse nofun
  | .bool a, .bool b =>
      if h : a = b then .isTrue (by rw [h]) else .isFalse (by intro hh; injection hh; contradiction)
  | .bool _, .num _ => .isFalse nofun
  | .bool _, .str _ => .isFalse nofun
  | .bool _, .arr _ => .isFalse nofun
  | .bool _, .obj _ => .isFalse nofun
  | .num _, .null => .isFalse nofun
  | .num _, .bool _ => .isFalse nofun
  | .num a, .num b =>
      if h : a = b then .isTrue (by rw [h]) else .isFalse (by intro hh; injection hh; contradiction)
  | .num _, .str _ => .isFalse nofun
  | .num _, .arr _ => .isFalse nofun
  | .num _, .obj _ => .isFalse nofun
  | .str _, .null => .isFalse nofun
  | .str _, .bool _ => .isFalse nofun
  | .str _, .num _ => .isFalse nofun
  | .str a, .str b =>
      if h : a = b then .isTrue (by rw [h]) else .isFalse (by intro hh; injection hh; contradiction)
  | .str _, .arr _ => .isFalse nofun
  | .str _, .obj _ => .isFalse nofun
  | .arr _, .null => .isFalse nofun
  | .arr _, .bool _ => .isFalse nofun
  | .arr _, .num _ => .isFalse nofun
  | .arr _, .str _ => .isFalse nofun
  | .arr as, .arr bs =>
      match Json.decEqList as bs with
      | .isTrue h => .isTrue (by rw [h])
      | .isFalse h => .isFalse (by intro hh; injection hh; contradiction)
  | .arr _, .obj _ => .isFalse nofun
  | .obj _, .null => .isFalse nofun
  | .obj _, .bool _ => .isFalse nofun
  | .obj _, .num _ => .isFalse nofun
  | .obj _, .str _ => .isFalse nofun
  | .obj _, .arr _ => .isFalse nofun
  | .obj as, .obj bs =>
      match Json.decEqObj as bs with
      | .isTrue h => .isTrue (by rw [h])
      | .isFalse h => .isFalse (by intro hh; injection hh; contradiction)

def Json.decEqList : (as bs : List Json) → Decidable (as = bs)
  | [], [] => .isTrue rfl
  | [], _ :: _ => .isFalse nofun
  | _ :: _, [] => .isFalse nofun
  | a :: as, b :: bs =>
      match Json.decEq a b with
      | .isFalse h => .isFalse (by intro hh; injection hh; contradiction)
      | .isTrue h1 =>
          match Json.decEqList as bs with
          | .isTrue h2 => .isTrue (by rw [h1, h2])
          | .isFalse h2 => .isFalse (by intro hh; injection hh; contradiction)

def Json.decEqObj : (as bs : List (String × Json)) → Decidable (as = bs)
  | [], [] => .isTrue rfl
  | [], _ :: _ => .isFalse nofun
  | _ :: _, [] => .isFalse nofun
  | (k1, v1) :: as, (k2, v2) :: bs =>
      if hk : k1 = k2 then
        match Json.decEq v1 v2 with
        | .isFalse h => .isFalse (by intro hh; injection hh with hh1 hh2; exact h (congrArg Prod.snd hh1))
        | .isTrue h1 =>
            match Json.decEqObj as bs with
            | .isTrue h2 => .isTrue (by rw [hk, h1, h2])
            | .isFalse h2 => .isFalse (by intro hh; injection hh; contradiction)
      else .isFalse (by intro hh; injection hh with hh1 hh2; exact hk (congrArg Prod.fst hh1))

end

instance : DecidableEq Json := Json.decEq

namespace PyDict

/-- `d.get(k)` on an association list representing a Python dict:
first binding of the key wins (dict keys are unique). -/
def dlookup {α : Type} : List (String × α) → String → Option α
  | [], _ => none
  | (k', v) :: rest, k => if k' = k then some v else dlookup rest k

/-- `d[k] = v` on a Python dict: replace the binding if the key is
present (keeping insertion order), otherwise append a new binding. -/
def dset {α : Type} : List (String × α) → String → α → List (String × α)
  | [], k, v => [(k, v)]
  | (k', v') :: rest, k, v =>
      if k' = k then (k, v) :: rest else (k', v') :: dset rest k v

/-- `dict(d)`: a shallow copy.  On the value level a copy is the value
itself; the point of the source's `dict(headers)` line is that later
in-place writes hit the copy, which the operational translations below
make explicit. -/
def dcopy {α : Type} (d : List (String × α)) : List (String × α) := d

@[simp] theorem dlookup_dset_self {α : Type} (d : List (String × α)) (k : String) (v : α) :
    dlookup (dset d k v) k = some v := by
  induction d with
  | nil => simp [dset, dlookup]
  | cons kv rest ih =>
      obtain ⟨k', v'⟩ := kv
      by_cases h : k' = k
      · simp [dset, h, dlookup]
      · simp [dset, h, dlookup, ih]

@[simp] theorem dlookup_dset_other {α : Type} (d : List (String × α)) (k k' : String) (v : α)
    (h : k' ≠ k) : dlookup (dset d k v) k' = dlookup d k' := by
  have hks : k ≠ k' := fun hh => h hh.symm
  induction d with
  | nil => simp [dset, dlookup, hks]
  | cons kv rest ih =>
      obtain ⟨k₀, v₀⟩ := kv
      by_cases h0 : k₀ = k
      · subst h0
        simp [dset, dlookup, hks]
      · by_cases h1 : k₀ = k'
        · simp [dset, h0, dlookup, h1, h]
        · simp [dset, h0, dlookup, h1, ih]

end PyDict

open PyDict

/-- `d.get(k)` where the dict holds Python/JSON values: a missing key
gives `None`, i.e. `Json.null`. -/
def dgetJ (d : List (String × Json)) (k : String) : Json :=
  (dlookup d k).getD Json.null

/-- `k in d` presence test (`Option` result keeps present-`null`
distinguishable, as Python's `in` does). -/
def dfindJ (d : List (String × Json)) (k : String) : Option Json :=
  dlookup d k

/-- Python truthiness of a JSON value: `None`, `False`, `0`, `""`, `[]`,
`{}` are falsy, everything else truthy. -/
def pyTruthy : Json → Bool
  | Json.null => false
  | Json.bool b => b
  | Json.num q => q ≠ 0
  | Json.str s => s ≠ ""
  | Json.arr xs => xs ≠ []
  | Json.obj kvs => kvs ≠ []

/-- Python's `x or y` on JSON values (returns `x` when truthy, else `y`). -/
def pyOr (x y : Json) : Json := if pyTruthy x then x else y

/-- Python exceptions raised by the translated code.  Oracle-injected
failures (`requests` errors, schema-file loading) reuse the same type. -/
inductive PyError where
  | assertionError (msg : String)
  | valueError (msg : String)
  | typeError (msg : String)
  | runtimeError (msg : String)
  | attributeError (msg : String)
  | fileNotFoundError (msg : String)
  | networkError (msg : String)
deriving DecidableEq, Repr

/-- `str(x)` for the JSON values the code feeds through it.  Container
rendering approximates CPython's `repr`-based element formatting; only
string/scalar inputs are exercised by the contract checks. -/
def pyStr : Json → String
  | Json.null => "None"
  | Json.bool b => if b then "True" else "False"
  | Json.num q => if q.den = 1 then toString q.num else toString q
  | Json.str s => s
  | Json.arr _ => "[...]"
  | Json.obj _ => "{...}"

/-- `s.strip()` on a character list: drop leading and trailing
whitespace. -/
def pyStripChars (cs : List Char) : List Char :=
  ((cs.dropWhile Char.isWhitespace).reverse.dropWhile Char.isWhitespace).reverse

/-- `s.strip()`. -/
def pyStrip (s : String) : String := String.mk (pyStripChars s.toList)

/-- `s.upper()`. -/
def pyUpper (s : String) : String := String.mk (s.toList.map Char.toUpper)

/-- `s.lower()`. -/
def pyLower (s : String) : String := String.mk (s.toList.map Char.toLower)

/-- `s.split(sep)` with a one-character separator, Python semantics:
`"".split(".") = [""]`, empty pieces are kept. -/
def pySplitAux (sep : Char) : List Char → List Char → List String
  | [], acc => [String.mk acc.reverse]
  | c :: cs, acc =>
      if c = sep then String.mk acc.reverse :: pySplitAux sep cs []
      else pySplitAux sep cs (c :: acc)

/-- `s.split(sep)` (one-character separator). -/
def pySplit (s : String) (sep : Char) : List String := pySplitAux sep s.toList []

/-- `s.startswith(pre)`. -/
def strStartsWith (s pre : String) : Bool := pre.toList.isPrefixOf s.toList

/-- `(x).strip()`: succeeds only on strings (Python raises
`AttributeError` otherwise). -/
def pyStripStr : Json → Except PyError String
  | Json.str s => .ok (pyStrip s)
  | j => .error (.attributeError (pyStr j ++ " has no attribute strip"))

/-- Decimal-literal parsing for `float(s)`: optional surrounding
whitespace and sign, digits with optional fraction, optional exponent.
(`inf`/`nan` and `_` digit separators are not modelled.) -/
def pyParseFloat (s : String) : Option ℚ :=
  let cs := pyStripChars s.toList
  let (sign, cs) : Int × List Char :=
    match cs with
    | '+' :: r => (1, r)
    | '-' :: r => (-1, r)
    | r => (1, r)
  let ip := cs.takeWhile Char.isDigit
  let cs := cs.dropWhile Char.isDigit
  let (fp, cs) : List Char × List Char :=
    match cs with
    | '.' :: r => (r.takeWhile Char.isDigit, r.dropWhile Char.isDigit)
    | r => ([], r)
  if ip = [] ∧ fp = [] then none
  else
    let digitsToNat : List Char → Nat := fun ds => ds.foldl (fun n c => n * 10 + (c.toNat - 48)) 0
    -- the rational sign * (ip.fp): integer mantissa over a power of ten
    let mantNum : Int := sign * (digitsToNat (ip ++ fp) : Int)
    let mantDen : Nat := 10 ^ fp.length
    match cs with
    | [] => some (Rat.divInt mantNum (mantDen : Int))
    | 'e' :: r | 'E' :: r =>
        let (eneg, r) : Bool × List Char :=
          match r with
          | '+' :: r' => (false, r')
          | '-' :: r' => (true, r')
          | r' => (false, r')
        let ed := r.takeWhile Char.isDigit
        let rest := r.dropWhile Char.isDigit
        if ed = [] ∨ rest ≠ [] then none
        else if eneg then some (Rat.divInt mantNum ((mantDen * 10 ^ digitsToNat ed : Nat) : Int))
        else some (Rat.divInt (mantNum * (10 ^ digitsToNat ed : Nat)) (mantDen : Int))
    | _ => none

/-- `float(x)`: numbers and bools coerce, numeric strings parse, other
strings raise `ValueError`, non-scalar / `None` values raise `TypeError`. -/
def pyFloat : Json → Except PyError ℚ
  | Json.num q => .ok q
  | Json.bool b => .ok (if b then 1 else 0)
  | Json.str s =>
      match pyParseFloat s with
      | some q => .ok q
      | none => .error (.valueError ("could not convert string to float: " ++ s))
  | Json.null => .error (.typeError "float() argument must be a string or a real number, not NoneType")
  | Json.arr _ => .error (.typeError "float() argument must be a string or a real number, not list")
  | Json.obj _ => .error (.typeError "float() argument must be a string or a real number, not dict")

/-- `int(x)` as used for `expected_status` (truncation toward zero for
numbers, strict digit strings, bools; `None`/containers raise). -/
def pyInt : Json → Except PyError Int
  | Json.num q =>
      .ok (if q.num ≥ 0 then (q.num.ediv (q.den : Int)) else -((-q.num).ediv (q.den : Int)))
  | Json.bool b => .ok (if b then 1 else 0)
  | Json.str s =>
      let cs := pyStripChars s.toList
      let (sign, ds) : Int × List Char :=
        match cs with
        | '+' :: r => (1, r)
        | '-' :: r => (-1, r)
        | r => (1, r)
      if ds ≠ [] ∧ ds.all Char.isDigit then
        .ok (sign * (ds.foldl (fun n c => n * 10 + (c.toNat - 48)) 0 : Nat))
      else .error (.valueError ("invalid literal for int() with base 10: " ++ s))
  | Json.null => .error (.typeError "int() argument must be a string or a number, not NoneType")
  | Json.arr _ => .error (.typeError "int() argument must be a string or a number, not list")
  | Json.obj _ => .error (.typeError "int() argument must be a string or a number, not dict")

/-- `list(x)`: lists stay, strings become their characters, dicts their
keys; scalars raise `TypeError`. -/
def pyList : Json → Except PyError (List Json)
  | Json.arr xs => .ok xs
  | Json.str s => .ok (s.toList.map (fun c => Json.str (String.mk [c])))
  | Json.obj kvs => .ok (kvs.map (fun kv => Json.str kv.1))
  | j => .error (.typeError (pyStr j ++ " object is not iterable"))

/-- Substring test (`needle in hay` for Python strings). -/
def strContains (hay needle : String) : Bool :=
  (List.range (hay.toList.length + 1)).any
    (fun i => needle.toList.isPrefixOf (hay.toList.drop i))

/-! ## `regression/auth.py` -/

/-- `OAuth2Token` from `regression/auth.py`: access token, token type and
an absolute expiry instant (`none` = never expires).  Instants are
rationals standing for `time.time()` floats. -/
structure OAuth2Token where
  access_token : String
  token_type : String := "Bearer"
  expires_at : Option ℚ := none
deriving DecidableEq, Repr

/-- `OAuth2Token.is_expired`, with the current time passed explicitly:
`time.time() >= self.expires_at - 10` (10 s safety skew); a token with
no expiry instant is never expired. -/
def OAuth2Token.is_expired (t : OAuth2Token) (now : ℚ) : Bool :=
  match t.expires_at with
  | none => false
  | some e => now ≥ e - 10

/-- `AuthConfig` from `regression/auth.py`.  `mode ∈ {none, api_key,
oauth2}`.  The `_lock` field guards the cache in the source; the
embedding is sequential, so the lock is not modelled.  `_cached_token`
is the mutable cached-token slot, threaded explicitly below. -/
structure AuthConfig where
  mode : String
  api_key : Option String := none
  api_key_header : String := "X-API-Key"
  api_key_query_param : Option String := none
  bearer_token : Option String := none
  oauth2_token_url : Option String := none
  oauth2_client_id : Option String := none
  oauth2_client_secret : Option String := none
  oauth2_scope : Option String := none
  _cached_token : Option OAuth2Token := none
deriving DecidableEq, Repr

/-- Truthiness of an optional string field (`None` and `""` are falsy). -/
def strOptTruthy : Option String → Bool
  | none => false
  | some s => s ≠ ""

/-- `_fetch_client_credentials_token`.  The HTTP POST to the token
endpoint is the oracle `resp`: `.error` models a `requests` failure or a
non-2xx answer (`raise_for_status`), `.ok payload` the decoded JSON
body.  The missing-credentials guard and the response parsing are
translated from the source; `now` stands for the `time.time()` call. -/
def fetch_client_credentials_token (now : ℚ) (client_id client_secret : Option String)
    (resp : Except PyError Json) : Except PyError OAuth2Token :=
  if ¬ strOptTruthy client_id ∨ ¬ strOptTruthy client_secret then
    .error (.runtimeError "SUT_OAUTH_CLIENT_ID and SUT_OAUTH_CLIENT_SECRET are required for client-credentials")
  else
    match resp with
    | .error e => .error e
    | .ok payload =>
        match payload with
        | Json.obj kvs =>
            let access_token := pyStrip (pyStr (pyOr (dgetJ kvs "access_token") (Json.str "")))
            let token_type₀ := pyStrip (pyStr (pyOr (dgetJ kvs "token_type") (Json.str "Bearer")))
            let token_type := if token_type₀ = "" then "Bearer" else token_type₀
            let expires_in := dgetJ kvs "expires_in"
            if access_token = "" then
              .error (.runtimeError "OAuth2 token endpoint response missing access_token")
            else
              let expires_at : Option ℚ :=
                if expires_in = Json.null then none
                else
                  match pyFloat expires_in with
                  | .ok q => some (now + q)
                  | .error _ => none
              .ok { access_token := access_token, token_type := token_type, expires_at := expires_at }
        | _ => .error (.runtimeError "OAuth2 token endpoint returned non-object JSON")

/-- `AuthConfig.get_bearer_token`, with the current time and the
token-endpoint response passed as oracles.  Returns the token (if any),
the configuration with its updated `_cached_token` slot, and the number
of token-endpoint exchanges performed (0 or 1). -/
def AuthConfig.get_bearer_token (cfg : AuthConfig) (now : ℚ) (tokenResp : Except PyError Json) :
    Except PyError (Option String × AuthConfig × Nat) :=
  -- Static token wins.
  if strOptTruthy cfg.bearer_token then .ok (cfg.bearer_token, cfg, 0)
  -- Client-credentials token.
  else if ¬ strOptTruthy cfg.oauth2_token_url then .ok (none, cfg, 0)
  else
    match cfg._cached_token with
    | some t =>
        if ¬ t.is_expired now then .ok (some t.access_token, cfg, 0)
        else
          match fetch_client_credentials_token now cfg.oauth2_client_id cfg.oauth2_client_secret tokenResp with
          | .ok tk => .ok (some tk.access_token, { cfg with _cached_token := some tk }, 1)
          | .error e => .error e
    | none =>
        match fetch_client_credentials_token now cfg.oauth2_client_id cfg.oauth2_client_secret tokenResp with
        | .ok tk => .ok (some tk.access_token, { cfg with _cached_token := some tk }, 1)
        | .error e => .error e

/-- `AuthConfig.apply_headers`.  The source's first line rebinds
`headers` to `dict(headers)`, so every later write hits that copy; the
second component of the result is the caller's dict after the call,
which is therefore the unchanged input.  The third component is the
configuration with its (possibly refreshed) token cache. -/
def AuthConfig.apply_headers (cfg : AuthConfig) (now : ℚ) (tokenResp : Except PyError Json)
    (headers : List (String × String)) :
    Except PyError (List (String × String) × List (String × String) × AuthConfig) :=
  let h := dcopy headers
  if cfg.mode = "api_key" then
    .ok ((if strOptTruthy cfg.api_key ∧ cfg.api_key_header ≠ "" then
            dset h cfg.api_key_header (cfg.api_key.getD "")
          else h), headers, cfg)
  else if cfg.mode = "oauth2" then
    match cfg.get_bearer_token now tokenResp with
    | .error e => .error e
    | .ok (token, cfg', _) =>
        match token with
        | some t =>
            if t ≠ "" then .ok (dset h "Authorization" ("Bearer " ++ t), headers, cfg')
            else .ok (h, headers, cfg')
        | none => .ok (h, headers, cfg')
  else .ok (h, headers, cfg)

/-- Split a URL string at the first occurrence of a separator character,
keeping neither side the separator (helper for the `urlparse` model). -/
def splitAtFirst (s : String) (sep : Char) : String × Option String :=
  match s.toList.findIdx? (· = sep) with
  | none => (s, none)
  | some i => (String.mk (s.toList.take i), some (String.mk (s.toList.drop (i + 1))))

/-- `parse_qsl(query, keep_blank_values=True)`: split on `&`, split each
non-empty piece at the first `=` (a piece without `=` keeps a blank
value).  Percent-decoding is not modelled; the checks use token-safe
keys and values. -/
def parse_qsl (query : String) : List (String × String) :=
  (pySplit query '&').filterMap (fun piece =>
    if piece = "" then none
    else
      match splitAtFirst piece '=' with
      | (k, some v) => some (k, v)
      | (k, none) => some (k, ""))

/-- `urlencode`: join `k=v` pairs with `&` (no percent-escaping, see
`parse_qsl`). -/
def urlencode (q : List (String × String)) : String :=
  String.intercalate "&" (q.map (fun kv => kv.1 ++ "=" ++ kv.2))

/-- `AuthConfig.apply_url`: in `api_key` mode with a configured key and
query-parameter name, merge the key into the URL's query string
(overwriting an existing same-named parameter); otherwise the identity.
`urlparse`/`urlunparse` are modelled by splitting at the first `?` and
`#` (fragments are preserved, percent-encoding is not modelled). -/
def AuthConfig.apply_url (cfg : AuthConfig) (url : String) : String :=
  if cfg.mode ≠ "api_key" then url
  else if ¬ strOptTruthy cfg.api_key ∨ ¬ strOptTruthy cfg.api_key_query_param then url
  else
    let (mainPart, fragment) := splitAtFirst url '#'
    let (base, query) := splitAtFirst mainPart '?'
    let q := parse_qsl (query.getD "")
    -- dict(parse_qsl(...)) deduplicates; dset on the deduplicated list
    -- then overwrites or appends the API-key parameter.
    let qd := q.foldl (fun d kv => dset d kv.1 kv.2) []
    let q' := dset qd (cfg.api_key_query_param.getD "") (cfg.api_key.getD "")
    base ++ "?" ++ urlencode q' ++ (match fragment with | some f => "#" ++ f | none => "")

/-! ## `regression/schema_validation.py` -/

/-- One violation produced by `Draft202012Validator.iter_errors`: its
location path (`e.path`, a sequence of container indices, modelled as
`List Nat`) and its human-readable message. -/
structure SchemaViolation where
  path : List Nat
  message : String
deriving DecidableEq, Repr

/-- Lexicographic comparison of violation paths — Python's `<=` on the
`e.path` deques used as `sorted` keys. -/
def pathLeB : List Nat → List Nat → Bool
  | [], _ => true
  | _ :: _, [] => false
  | a :: as, b :: bs => if a < b then true else if b < a then false else pathLeB as bs

theorem pathLeB_total : ∀ a b : List Nat, pathLeB a b = true ∨ pathLeB b a = true
  | [], _ => Or.inl rfl
  | _ :: _, [] => Or.inr rfl
  | a :: as, b :: bs => by
      rcases Nat.lt_trichotomy a b with h | h | h
      · left; simp [pathLeB, h]
      · subst h
        rcases pathLeB_total as bs with h' | h'
        · left; simp [pathLeB, h']
        · right; simp [pathLeB, h']
      · right; simp [pathLeB, h, Nat.not_lt_of_gt h]

theorem pathLeB_trans : ∀ a b c : List Nat,
    pathLeB a b = true → pathLeB b c = true → pathLeB a c = true
  | [], _, _, _, _ => rfl
  | _ :: _, [], _, hab, _ => by simp [pathLeB] at hab
  | _ :: _, _ :: _, [], _, hbc => by simp [pathLeB] at hbc
  | a :: as, b :: bs, c :: cs, hab, hbc => by
      simp only [pathLeB] at hab hbc ⊢
      rcases Nat.lt_trichotomy a b with h1 | h1 | h1
      · rcases Nat.lt_trichotomy b c with h2 | h2 | h2
        · simp [Nat.lt_trans h1 h2]
        · subst h2; simp [h1]
        · simp [h2, Nat.not_lt_of_gt h2] at hbc
      · subst h1
        rcases Nat.lt_trichotomy a c with h3 | h3 | h3
        · simp [h3]
        · subst h3
          simp [Nat.lt_irrefl] at hab hbc ⊢
          exact pathLeB_trans _ _ _ hab hbc
        · simp [h3, Nat.not_lt_of_gt h3] at hbc ⊢
      · simp [h1, Nat.not_lt_of_gt h1] at hab

/-- The `sorted` key order on violations. -/
def violationLe (e1 e2 : SchemaViolation) : Prop := pathLeB e1.path e2.path = true

instance : DecidableRel violationLe := fun e1 e2 => by
  unfold violationLe; infer_instance

instance : IsTotal SchemaViolation violationLe :=
  ⟨fun e1 e2 => pathLeB_total e1.path e2.path⟩

instance : IsTrans SchemaViolation violationLe :=
  ⟨fun _ _ _ => pathLeB_trans _ _ _⟩

/-- `validate_schema(schema_path, payload)`.  `load_json_schema` (disk
access plus `lru_cache`d compilation) is the oracle `loadSchema`: `.ok
validator` yields the compiled validator's `iter_errors` as a function
from payloads to violation lists, `.error` models `FileNotFoundError`
or a broken schema file.  Violations are sorted by `e.path`; any
violation raises one `AssertionError` carrying the schema reference and
the first five messages joined by `"; "`. -/
def validate_schema (loadSchema : String → Except PyError (Json → List SchemaViolation))
    (schema_path : String) (payload : Json) : Except PyError Unit :=
  match loadSchema schema_path with
  | .error e => .error e
  | .ok validator =>
      let errors := List.insertionSort violationLe (validator payload)
      if errors = [] then .ok ()
      else .error (.assertionError
        ("Schema validation failed for " ++ schema_path ++ ": " ++
          String.intercalate "; " ((errors.take 5).map (fun e => e.message))))

/-! ## `regression/api_contract.py` -/

/-- `HttpResult` from `regression/api_contract.py`: final URL, status
code, decoded JSON body (`Json.null` when the response had no body). -/
structure HttpResult where
  url : String
  status_code : Int
  json : Json
deriving DecidableEq, Repr

/-- `[A-Za-z_]` — first character of an environment-variable name in
`_ENV_VAR_PATTERN`. -/
def isIdentStart (c : Char) : Bool := c.isAlpha || c = '_'

/-- `[A-Za-z0-9_]` — subsequent characters of a variable name. -/
def isIdentChar (c : Char) : Bool := c.isAlphanum || c = '_'

/-- `os.getenv(name) or ""`: unset and empty variables both expand to
the empty string. -/
def envLookup (env : String → Option String) (name : String) : String :=
  match env name with
  | some s => s
  | none => ""

/-- Character-level model of `_ENV_VAR_PATTERN.sub`: scan left to right,
replacing `${NAME}`, `$NAME` and `%NAME%` occurrences; text that does
not match the pattern is copied verbatim and scanning resumes after the
non-matching character, as `re.sub` does.  Each step consumes at least
one character, so a fuel of the input length makes the recursion
structural; the fuel never runs out on the intended initial call. -/
def expandEnvFuel (env : String → Option String) : Nat → List Char → List Char
  | 0, _ => []
  | _ + 1, [] => []
  | fuel + 1, '$' :: '{' :: c :: cs =>
      if isIdentStart c then
        match cs.dropWhile isIdentChar with
        | '}' :: tail =>
            (envLookup env (String.mk (c :: cs.takeWhile isIdentChar))).toList
              ++ expandEnvFuel env fuel tail
        | _ => '$' :: expandEnvFuel env fuel ('{' :: c :: cs)
      else '$' :: expandEnvFuel env fuel ('{' :: c :: cs)
  | fuel + 1, '$' :: c :: cs =>
      if isIdentStart c then
        (envLookup env (String.mk (c :: cs.takeWhile isIdentChar))).toList
          ++ expandEnvFuel env fuel (cs.dropWhile isIdentChar)
      else '$' :: expandEnvFuel env fuel (c :: cs)
  | fuel + 1, '%' :: c :: cs =>
      if isIdentStart c then
        match cs.dropWhile isIdentChar with
        | '%' :: tail =>
            (envLookup env (String.mk (c :: cs.takeWhile isIdentChar))).toList
              ++ expandEnvFuel env fuel tail
        | _ => '%' :: expandEnvFuel env fuel (c :: cs)
      else '%' :: expandEnvFuel env fuel (c :: cs)
  | fuel + 1, ch :: cs => ch :: expandEnvFuel env fuel cs

/-- `_ENV_VAR_PATTERN.sub` over a whole character list. -/
def expandEnvChars (env : String → Option String) (cs : List Char) : List Char :=
  expandEnvFuel env cs.length cs

/-- `_expand_env_vars`: only non-empty strings are expanded; every
other value passes through unchanged. -/
def expand_env_vars (env : String → Option String) (value : Json) : Json :=
  match value with
  | Json.str s => if s = "" then Json.str s else Json.str (String.mk (expandEnvChars env s.toList))
  | v => v

/-- `_json_path_get`: descend along the (already split) dotted path,
stepping only into dicts via `.get` — a missing key yields `None`
(`Json.null`), and any non-dict mid-path short-circuits to `None`. -/
def json_path_get : Json → List String → Json
  | data, [] => data
  | Json.obj kvs, part :: rest => json_path_get (dgetJ kvs part) rest
  | _, _ :: _ => Json.null

/-- One iteration of the `_apply_assertions` loop for a single
assertion object `a` (a decoded YAML mapping; a non-mapping raises
`AttributeError` at the first `.get`).  Failed `assert` statements
raise `AssertionError`. -/
def apply_assertion (payload : Json) (a : Json) : Except PyError Unit := do
  let aObj ←
    match a with
    | Json.obj kvs => Except.ok kvs
    | j => Except.error (.attributeError (pyStr j ++ " has no attribute get"))
  let atype ← pyStripStr (pyOr (dgetJ aObj "type") (Json.str ""))
  let path ← pyStripStr (pyOr (dgetJ aObj "path") (Json.str ""))

  if atype = "json_path_exists" then
    if path = "" then throw (.assertionError "json_path_exists requires 'path'")
    else
      let value := json_path_get payload (pySplit path '.')
      if value = Json.null then
        throw (.assertionError ("Expected JSON path '" ++ path ++ "' to exist"))
      else pure ()

  else if atype = "json_path_equals" then
    if path = "" then throw (.assertionError "json_path_equals requires 'path'")
    else
      let expected := dgetJ aObj "expected"
      let actual := json_path_get payload (pySplit path '.')
      if actual = expected then pure ()
      else throw (.assertionError ("Expected " ++ path ++ " == expected, got other"))

  else if atype = "json_path_one_of" then
    if path = "" then throw (.assertionError "json_path_one_of requires 'path'")
    else
      let options := dgetJ aObj "any_of"
      match options with
      | Json.arr opts =>
          if opts = [] then throw (.assertionError "json_path_one_of requires non-empty any_of")
          else
            let actual := json_path_get payload (pySplit path '.')
            if actual ∈ opts then pure ()
            else throw (.assertionError ("Expected " ++ path ++ " in any_of, got other"))
      | _ => throw (.assertionError "json_path_one_of requires non-empty any_of")

  else if atype = "json_path_range" then
    if path = "" then throw (.assertionError "json_path_range requires 'path'")
    else do
      let actual := json_path_get payload (pySplit path '.')
      if actual = Json.null then
        throw (.assertionError ("Expected JSON path '" ++ path ++ "' to exist"))
      else
        let actual_num ← pyFloat actual
        (match dfindJ aObj "min" with
         | some mv =>
             if mv ≠ Json.null then do
               let m ← pyFloat mv
               if actual_num ≥ m then pure ()
               else throw (.assertionError ("Expected " ++ path ++ " >= min, got less"))
             else pure ()
         | none => pure ())
        (match dfindJ aObj "max" with
         | some mv =>
             if mv ≠ Json.null then do
               let m ← pyFloat mv
               if actual_num ≤ m then pure ()
               else throw (.assertionError ("Expected " ++ path ++ " <= max, got more"))
             else pure ()
         | none => pure ())

  else throw (.assertionError ("Unknown assertion type: " ++ atype))

/-- `_apply_assertions`: evaluate in declaration order; the first
failure aborts the loop. -/
def apply_assertions (payload : Json) : List Json → Except PyError Unit
  | [] => .ok ()
  | a :: rest => do
      apply_assertion payload a
      apply_assertions payload rest

/-- `resp.headers.get(name)`: `requests` response headers are
case-insensitive. -/
def respHeaderGet (headers : List (String × String)) (name : String) : Option String :=
  (headers.find? (fun kv => pyLower kv.1 = pyLower name)).map (fun kv => kv.2)

/-- One iteration of the `_apply_expected_headers` loop for header
`name` under rule `rule`.  `research rx s` is the oracle for
`re.search(rx, s)` truthiness. -/
def apply_expected_header (research : String → String → Bool)
    (respHeaders : List (String × String)) (name : String) (rule : Json) :
    Except PyError Unit := do
  let actual := respHeaderGet respHeaders name
  match rule with
  | Json.str s =>
      -- Shorthand: expected_headers: {"Content-Type": "application/json"}
      match actual with
      | none => throw (.assertionError ("Expected header '" ++ name ++ "' to exist"))
      | some av =>
          if av = s then pure ()
          else throw (.assertionError ("Expected header '" ++ name ++ "' to equal rule value"))
  | Json.bool true =>
      match actual with
      | none => throw (.assertionError ("Expected header '" ++ name ++ "' to exist"))
      | some _ => pure ()
  | Json.obj kvs => do
      (if pyTruthy (dgetJ kvs "exists") then
         match actual with
         | none => throw (.assertionError ("Expected header '" ++ name ++ "' to exist"))
         | some _ => pure ()
       else pure ())
      (match dfindJ kvs "equals" with
       | some _ =>
           match actual with
           | none => throw (.assertionError ("Expected header '" ++ name ++ "' to exist"))
           | some av =>
               let expected_value := pyStr (dgetJ kvs "equals")
               if av = expected_value then pure ()
               else throw (.assertionError ("Expected header '" ++ name ++ "' to equal rule value"))
       | none => pure ())
      (match dfindJ kvs "contains" with
       | some _ =>
           match actual with
           | none => throw (.assertionError ("Expected header '" ++ name ++ "' to exist"))
           | some av =>
               let needle := pyStr (dgetJ kvs "contains")
               if strContains av needle then pure ()
               else throw (.assertionError ("Expected header '" ++ name ++ "' to contain needle"))
       | none => pure ())
      (match dfindJ kvs "regex" with
       | some _ =>
           match actual with
           | none => throw (.assertionError ("Expected header '" ++ name ++ "' to exist"))
           | some av =>
               let rx := pyStr (dgetJ kvs "regex")
               if research rx av then pure ()
               else throw (.assertionError ("Expected header '" ++ name ++ "' to match regex"))
       | none => pure ())
      pure ()
  | _ => throw (.assertionError ("Unsupported expected_headers rule for '" ++ name ++ "'"))

/-- `_apply_expected_headers`: iterate over the declared header rules
in order; the first failure aborts. -/
def apply_expected_headers (research : String → String → Bool)
    (respHeaders : List (String × String)) : List (String × Json) → Except PyError Unit
  | [] => .ok ()
  | (name, rule) :: rest => do
      apply_expected_header research respHeaders name rule
      apply_expected_headers research respHeaders rest

/-- One check object of the contract document.  Fields mirror
`check.get(...)` access: a missing key is `Json.null` (Python `None`). -/
structure Check where
  method : Json := Json.null
  path : Json := Json.null
  auth : Json := Json.null
  expected_status : Json := Json.null
  schema : Json := Json.null
  assertList : Json := Json.null   -- the `assert` key of the YAML check
  expected_headers : Json := Json.null
  headers : Json := Json.null
deriving Repr, Inhabited

/-- The SUT's HTTP response as seen through `requests`: status code,
(case-insensitive) headers, and the decoded JSON body — `none` models
an empty `resp.content`. -/
structure HttpResponse where
  status_code : Int
  headers : List (String × String)
  body : Option Json
deriving Repr, Inhabited

/-- Ambient context of one `run_contract_checks` call: the
preamble-resolved base URL and base headers, plus the external-world
oracles (environment variables, HTTP dispatch, token endpoint, schema
loading, `re.search`).  `now` models `time.time()`. -/
structure RunCtx where
  env : String → Option String
  base_url : String
  base_headers : List (String × String)
  now : ℚ
  tokenResp : Except PyError Json
  respond : String → String → List (String × String) → Except PyError HttpResponse
  loadSchema : String → Except PyError (Json → List SchemaViolation)
  research : String → String → Bool

/-- The per-check auth-override resolution of `run_contract_checks`:
`""`/`"default"` reuse the run-wide config object itself (first
component `true`); an explicit mode constructs a fresh `AuthConfig`
copying only the relevant static credential fields (all other fields,
including `_cached_token`, take their dataclass defaults); anything
else raises. -/
def resolve_auth_override (authJson : Json) (default_auth : AuthConfig) :
    Except PyError (Bool × AuthConfig) := do
  let s ← pyStripStr (pyOr authJson (Json.str ""))
  let auth_override := pyLower s
  if auth_override = "" ∨ auth_override = "default" then
    .ok (true, default_auth)
  else if auth_override = "none" then
    .ok (false, { mode := "none" })
  else if auth_override = "api_key" ∨ auth_override = "apikey" then
    .ok (false, { mode := "api_key",
                  api_key := default_auth.api_key,
                  api_key_header := default_auth.api_key_header,
                  api_key_query_param := default_auth.api_key_query_param })
  else if auth_override = "oauth2" ∨ auth_override = "bearer" then
    .ok (false, { mode := "oauth2",
                  bearer_token := default_auth.bearer_token,
                  oauth2_token_url := default_auth.oauth2_token_url,
                  oauth2_client_id := default_auth.oauth2_client_id,
                  oauth2_client_secret := default_auth.oauth2_client_secret,
                  oauth2_scope := default_auth.oauth2_scope })
  else
    .error (.assertionError ("Unknown auth override: " ++ auth_override))

/-- `"a/b".rstrip("/")` — drop all trailing slashes. -/
def rstripSlash (s : String) : String := String.mk (s.toList.reverse.dropWhile (· = '/')).reverse

/-- `"/a/b".lstrip("/")` — drop all leading slashes. -/
def lstripSlash (s : String) : String := String.mk (s.toList.dropWhile (· = '/'))

/-- The body of the `for check in spec.get("checks") or []` loop of
`run_contract_checks`: resolve URL and auth override, apply auth to URL
and headers, merge extra request headers, dispatch (oracle), then the
validation pipeline — status, expected headers, schema, assertions.
Returns the appended `HttpResult` and the run-wide default `AuthConfig`
(whose token cache the check may have refreshed when it used the
default auth; an override's fresh cache dies with the check).
`urljoin` is modelled for its use site — a base URL stripped to end in
exactly one `/` joined with a relative path with no leading `/` (dot
segments are not modelled). -/
def process_check (ctx : RunCtx) (default_auth : AuthConfig) (check : Check) :
    Except PyError (HttpResult × AuthConfig) := do
  let method := pyUpper (pyStr (pyOr check.method (Json.str "GET")))
  let path := pyStr (expand_env_vars ctx.env (pyOr check.path (Json.str "")))
  if path = "" then throw (.assertionError "Each check needs a 'path'")
  else do
  let url₀ :=
    if strStartsWith path "http://" ∨ strStartsWith path "https://" then path
    else rstripSlash ctx.base_url ++ "/" ++ lstripSlash path
  let (isDefault, auth) ← resolve_auth_override check.auth default_auth
  let url := auth.apply_url url₀
  let expected_status ← pyInt (pyOr check.expected_status (Json.num 200))
  let schema_path := check.schema
  let assertions := pyOr check.assertList (Json.arr [])
  let expected_headers := pyOr check.expected_headers (Json.obj [])
  if pyTruthy expected_headers && (match expected_headers with | Json.obj _ => false | _ => true) then
    throw (.assertionError "check.expected_headers must be a mapping")
  else do
  let (headers₀, _callerHeaders, auth') ← auth.apply_headers ctx.now ctx.tokenResp ctx.base_headers
  let extra_headers := pyOr check.headers (Json.obj [])
  match extra_headers with
  | Json.obj extras => do
      let headers := extras.foldl
        (fun h kv => dset h kv.1 (pyStr (expand_env_vars ctx.env kv.2))) headers₀
      let resp ← ctx.respond method url headers
      -- Status code validation
      if resp.status_code ≠ expected_status then
        throw (.assertionError (method ++ " " ++ url ++ ": status mismatch"))
      else do
      -- Response header validation
      (if pyTruthy expected_headers then
         match expected_headers with
         | Json.obj ehs => apply_expected_headers ctx.research resp.headers (dcopy ehs)
         | _ => pure ()   -- unreachable: guarded by the mapping check above
       else pure ())
      -- JSON parsing + schema validation
      let payload := match resp.body with | some j => j | none => Json.null
      (if pyTruthy schema_path then
         validate_schema ctx.loadSchema (pyStr schema_path) payload
       else pure ())
      -- Business logic / data accuracy assertions
      (if pyTruthy assertions then do
         (match payload with
          | Json.obj _ => pure ()
          | Json.arr _ => pure ()
          | _ => throw (.assertionError (method ++ " " ++ url ++ ": payload not JSON object/array")))
         let alist ← pyList assertions
         apply_assertions payload alist
       else pure ())
      pure ({ url := url, status_code := resp.status_code, json := payload },
            if isDefault then auth' else default_auth)
  | _ => throw (.assertionError "check.headers must be a mapping")

/-- The `run_contract_checks` loop over the declared checks, threading
the run-wide `AuthConfig` (its token cache is the only cross-check
state).  Besides the result it counts how many checks were executed
(i.e. how many loop iterations started). -/
def runChecksCounted (ctx : RunCtx) :
    AuthConfig → List Check → Except PyError (List HttpResult) × Nat
  | _, [] => (.ok [], 0)
  | st, c :: rest =>
      match process_check ctx st c with
      | .error e => (.error e, 1)
      | .ok (r, st') =>
          match runChecksCounted ctx st' rest with
          | (.ok rs, n) => (.ok (r :: rs), n + 1)
          | (.error e, n) => (.error e, n + 1)

/-- `run_contract_checks` after its preamble (file loading, base-URL
and base-header resolution, env-based default auth config — all
captured by `ctx` and `default_auth`): either the full ordered result
list or the first failure. -/
def run_contract_checks (ctx : RunCtx) (default_auth : AuthConfig) (checks : List Check) :
    Except PyError (List HttpResult) :=
  (runChecksCounted ctx default_auth checks).1

/-- Number of checks the run executed (loop iterations started). -/
def executedChecks (ctx : RunCtx) (default_auth : AuthConfig) (checks : List Check) : Nat :=
  (runChecksCounted ctx default_auth checks).2

/-- The run-wide `AuthConfig` state in force when check `i` starts
(the default config's token cache after the first `i` checks). -/
def authStateAt (ctx : RunCtx) : AuthConfig → List Check → Nat → AuthConfig
  | st, _, 0 => st
  | st, [], _ + 1 => st
  | st, c :: rest, i + 1 =>
      match process_check ctx st c with
      | .ok (_, st') => authStateAt ctx st' rest i
      | .error _ => st

/-! ## Claim theorems -/

/-- **C4.**  For every `OAuth2Token`, `is_expired` returns true iff the
token has a non-null expiry instant `e` and `now ≥ e - 10` (10-second
skew); a token with a null expiry instant is never expired. -/
theorem oauth2_token_expiry_skew (t : OAuth2Token) (now : ℚ) :
    t.is_expired now = true ↔ ∃ e, t.expires_at = some e ∧ now ≥ e - 10 := by
  cases h : t.expires_at with
  | none => simp [OAuth2Token.is_expired, h]
  | some e => simp [OAuth2Token.is_expired, h]

/-- The spec-side notion of dotted-path resolution ("descend into
mapping types only; a missing key or a non-mapping mid-path yields not
found"), keeping presence distinct from a present `null`:
`none` = not found, `some v` = present value `v`. -/
def json_path_resolve : Json → List String → Option Json
  | data, [] => some data
  | Json.obj kvs, part :: rest =>
      (match dfindJ kvs part with
       | some v => json_path_resolve v rest
       | none => none)
  | _, _ :: _ => none

theorem json_path_get_null (parts : List String) :
    json_path_get Json.null parts = Json.null := by
  cases parts <;> rfl

/-- `_json_path_get` computes spec-side resolution with `null`
substituted for "not found". -/
theorem json_path_get_eq_resolve :
    ∀ (parts : List String) (d : Json),
      json_path_get d parts = (json_path_resolve d parts).getD Json.null
  | [], d => by cases d <;> rfl
  | part :: rest, d => by
      cases d with
      | obj kvs =>
          cases h : dfindJ kvs part with
          | some v =>
              have hd : dgetJ kvs part = v := by simp [dgetJ, dfindJ] at h ⊢; rw [h]; rfl
              simp [json_path_get, json_path_resolve, h, hd,
                    json_path_get_eq_resolve rest v]
          | none =>
              have hd : dgetJ kvs part = Json.null := by simp [dgetJ, dfindJ] at h ⊢; rw [h]; rfl
              simp [json_path_get, json_path_resolve, h, hd, json_path_get_null]
      | null => simp [json_path_get, json_path_resolve]
      | bool b => simp [json_path_get, json_path_resolve]
      | num q => simp [json_path_get, json_path_resolve]
      | str s => simp [json_path_get, json_path_resolve]
      | arr xs => simp [json_path_get, json_path_resolve]

/-- The `json_path_exists` assertion object `{"type":
"json_path_exists", "path": p}`. -/
def existsAssertion (p : String) : Json :=
  Json.obj [("type", Json.str "json_path_exists"), ("path", Json.str p)]

theorem exists_assertion_eval (payload : Json) (p : String)
    (hp : p ≠ "") (hpt : pyStrip p = p) :
    apply_assertions payload [existsAssertion p] =
      (if json_path_get payload (pySplit p '.') = Json.null
       then .error (.assertionError ("Expected JSON path '" ++ p ++ "' to exist"))
       else .ok ()) := by
  have ht : pyStrip "json_path_exists" = "json_path_exists" := by decide
  simp [apply_assertions, apply_assertion, existsAssertion, dgetJ, dfindJ, dlookup, pyOr,
    pyTruthy, pyStripStr, hp, hpt, ht, bind, Except.bind]
  split <;> rename_i heq <;>
    (split at heq <;> simp_all [throw, throwThe, MonadExceptOf.throw, pure, Except.pure])

instance {ε α : Type} [DecidableEq ε] [DecidableEq α] : DecidableEq (Except ε α) := fun a b =>
  match a, b with
  | .ok x, .ok y =>
      if h : x = y then .isTrue (by rw [h]) else .isFalse (by intro hh; injection hh; contradiction)
  | .error x, .error y =>
      if h : x = y then .isTrue (by rw [h]) else .isFalse (by intro hh; injection hh; contradiction)
  | .ok _, .error _ => .isFalse nofun
  | .error _, .ok _ => .isFalse nofun

/-- **C2 (amended).**  Dotted-path resolution descends into mappings
only; a missing key or a non-mapping mid-path yields "not found", which
`_json_path_get` encodes as `None`/`null`.  The `exists` assertion
passes iff the path resolves to a present **non-null** value: it fails
both when the path is absent and when a present value is `null` — a
present `null` is indistinguishable from absence, while every other
falsy-but-present value (`0`, `""`, `false`, `[]`, `{}`) passes. -/
theorem json_path_exists_semantics (payload : Json) :
    (∀ parts, json_path_get payload parts = (json_path_resolve payload parts).getD Json.null)
    ∧ ∀ p, p ≠ "" → pyStrip p = p →
        (apply_assertions payload [existsAssertion p] = .ok ()
          ↔ ∃ v, json_path_resolve payload (pySplit p '.') = some v ∧ v ≠ Json.null) := by
  constructor
  · intro parts; exact json_path_get_eq_resolve parts payload
  · intro p hp hpt
    rw [exists_assertion_eval payload p hp hpt]
    rw [json_path_get_eq_resolve]
    cases h : json_path_resolve payload (pySplit p '.') with
    | none => simp
    | some v => by_cases hv : v = Json.null <;> simp [hv]

theorem json_path_exists_semantics_witness :
    apply_assertions (Json.obj [("a", Json.num 0)]) [existsAssertion "a"] = .ok ()
      ↔ ∃ v, json_path_resolve (Json.obj [("a", Json.num 0)]) (pySplit "a" '.') = some v ∧
          v ≠ Json.null :=
  (json_path_exists_semantics (Json.obj [("a", Json.num 0)])).2 "a" (by decide) (by decide)

/-- **C2 (counterexample).**  On the payload `{"a": null}` the path
`"a"` is present (it resolves to the present value `null`), yet the
`exists` assertion fails — so "a present null is distinct from absence"
is false for this code. -/
theorem json_path_exists_present_null_fails :
    json_path_resolve (Json.obj [("a", Json.null)]) ["a"] = some Json.null ∧
    apply_assertions (Json.obj [("a", Json.null)]) [existsAssertion "a"]
      = .error (.assertionError "Expected JSON path 'a' to exist") := by
  constructor
  · decide
  · decide

/-- The `json_path_range` assertion object with optional `min`/`max`. -/
def rangeAssertion (p : String) (mo Mo : Option Json) : Json :=
  Json.obj ([("type", Json.str "json_path_range"), ("path", Json.str p)]
    ++ (match mo with | some m => [("min", m)] | none => [])
    ++ (match Mo with | some M => [("max", M)] | none => []))

theorem range_assertion_eval (payload : Json) (p : String)
    (hp : p ≠ "") (hpt : pyStrip p = p) (mo Mo : Option ℚ) :
    apply_assertions payload [rangeAssertion p (mo.map Json.num) (Mo.map Json.num)] =
      (if json_path_get payload (pySplit p '.') = Json.null then
        .error (.assertionError ("Expected JSON path '" ++ p ++ "' to exist"))
      else
        match pyFloat (json_path_get payload (pySplit p '.')) with
        | .error e => .error e
        | .ok q =>
            match mo with
            | some m =>
                if q ≥ m then
                  match Mo with
                  | some M =>
                      if q ≤ M then .ok ()
                      else .error (.assertionError ("Expected " ++ p ++ " <= max, got more"))
                  | none => .ok ()
                else .error (.assertionError ("Expected " ++ p ++ " >= min, got less"))
            | none =>
                match Mo with
                | some M =>
                    if q ≤ M then .ok ()
                    else .error (.assertionError ("Expected " ++ p ++ " <= max, got more"))
                | none => .ok ()) := by
  have ht : pyStrip "json_path_range" = "json_path_range" := by decide
  have h1 : ("json_path_range" : String) ≠ "json_path_exists" := by decide
  have h2 : ("json_path_range" : String) ≠ "json_path_equals" := by decide
  have h3 : ("json_path_range" : String) ≠ "json_path_one_of" := by decide
  by_cases hv : json_path_get payload (pySplit p '.') = Json.null
  · simp [apply_assertions, apply_assertion, rangeAssertion, dgetJ, dfindJ, dlookup, pyOr,
      pyTruthy, pyStripStr, hp, hpt, ht, h1, h2, h3, bind, Except.bind, throw,
      throwThe, MonadExceptOf.throw, pure, Except.pure, hv]
  · cases hF : pyFloat (json_path_get payload (pySplit p '.')) with
    | error e =>
        rcases mo with _ | m <;> rcases Mo with _ | M <;>
          simp [apply_assertions, apply_assertion, rangeAssertion, dgetJ, dfindJ, dlookup, pyOr,
            pyTruthy, pyStripStr, hp, hpt, ht, h1, h2, h3, bind, Except.bind, throw,
            throwThe, MonadExceptOf.throw, pure, Except.pure, hv, hF]
    | ok q =>
        rcases mo with _ | m <;> rcases Mo with _ | M
        · simp [apply_assertions, apply_assertion, rangeAssertion, dgetJ, dfindJ, dlookup, pyOr,
            pyTruthy, pyStripStr, hp, hpt, ht, h1, h2, h3, bind, Except.bind, throw,
            throwThe, MonadExceptOf.throw, pure, Except.pure, hv, hF]
        · have hfM : pyFloat (Json.num M) = .ok M := rfl
          by_cases hM : q ≤ M <;>
            simp [apply_assertions, apply_assertion, rangeAssertion, dgetJ, dfindJ, dlookup, pyOr,
              pyTruthy, pyStripStr, hp, hpt, ht, h1, h2, h3, bind, Except.bind, throw,
              throwThe, MonadExceptOf.throw, pure, Except.pure, hv, hF, hfM, hM]
        · have hfm : pyFloat (Json.num m) = .ok m := rfl
          by_cases hm : q ≥ m <;>
            simp [apply_assertions, apply_assertion, rangeAssertion, dgetJ, dfindJ, dlookup, pyOr,
              pyTruthy, pyStripStr, hp, hpt, ht, h1, h2, h3, bind, Except.bind, throw,
              throwThe, MonadExceptOf.throw, pure, Except.pure, hv, hF, hfm, hm]
        · have hfm : pyFloat (Json.num m) = .ok m := rfl
          have hfM : pyFloat (Json.num M) = .ok M := rfl
          by_cases hm : q >= m <;> by_cases hM : q ≤ M <;>
            simp [apply_assertions, apply_assertion, rangeAssertion, dgetJ, dfindJ, dlookup, pyOr,
              pyTruthy, pyStripStr, hp, hpt, ht, h1, h2, h3, bind, Except.bind, throw,
              throwThe, MonadExceptOf.throw, pure, Except.pure, hv, hF, hfm, hfM, hm, hM]

/-- **C7.**  When the value resolved at the range assertion's path is
present and numeric-coercible (`float(actual)` succeeds with `q`), the
assertion passes iff `(min absent or q ≥ min) ∧ (max absent or
q ≤ max)`, both bounds inclusive; when the resolved value is absent the
assertion fails. -/
theorem range_assertion_bounds (payload : Json) (p : String)
    (hp : p ≠ "") (hpt : pyStrip p = p) (mo Mo : Option ℚ) :
    (∀ q, pyFloat (json_path_get payload (pySplit p '.')) = .ok q →
        (apply_assertions payload [rangeAssertion p (mo.map Json.num) (Mo.map Json.num)] = .ok ()
          ↔ (∀ m ∈ mo, m ≤ q) ∧ (∀ M ∈ Mo, q ≤ M)))
    ∧ (json_path_get payload (pySplit p '.') = Json.null →
        apply_assertions payload [rangeAssertion p (mo.map Json.num) (Mo.map Json.num)]
          = .error (.assertionError ("Expected JSON path '" ++ p ++ "' to exist"))) := by
  constructor
  · intro q hq
    rw [range_assertion_eval payload p hp hpt mo Mo]
    have hv : ¬ json_path_get payload (pySplit p '.') = Json.null := by
      intro h; rw [h] at hq; exact absurd hq (by simp [pyFloat])
    rw [if_neg hv, hq]
    rcases mo with _ | m <;> rcases Mo with _ | M
    · simp
    · by_cases hM : q ≤ M <;> simp [hM]
    · by_cases hm : q ≥ m <;> simp [hm, ge_iff_le]
    · by_cases hm : q ≥ m <;> by_cases hM : q ≤ M <;> simp [hm, hM, ge_iff_le]
  · intro hnull
    rw [range_assertion_eval payload p hp hpt mo Mo, if_pos hnull]

theorem range_assertion_bounds_witness :
    pyFloat (json_path_get (Json.obj [("score", Json.num 42)]) (pySplit "score" '.')) = .ok 42
    ∧ (apply_assertions (Json.obj [("score", Json.num 42)])
         [rangeAssertion "score" ((some (0 : ℚ)).map Json.num) ((some (100 : ℚ)).map Json.num)]
           = .ok ()
        ↔ (∀ m ∈ (some (0 : ℚ)), m ≤ 42) ∧ (∀ M ∈ (some (100 : ℚ)), (42 : ℚ) ≤ M)) :=
  ⟨by decide,
   (range_assertion_bounds (Json.obj [("score", Json.num 42)]) "score" (by decide) (by decide)
     (some (0 : ℚ)) (some (100 : ℚ))).1 42 (by decide)⟩

/-- `pyFloat` only fails with a coercion error (`ValueError` for an
unparsable string, `TypeError` for `None` and containers) — never with
an `AssertionError`. -/
theorem pyFloat_error_kinds (v : Json) (e : PyError) (h : pyFloat v = .error e) :
    (∃ m, e = .valueError m) ∨ (∃ m, e = .typeError m) := by
  cases v with
  | null => right; exact ⟨_, by simpa [pyFloat] using h.symm⟩
  | bool b => exact absurd h (by simp [pyFloat])
  | num q => exact absurd h (by simp [pyFloat])
  | str s =>
      cases hps : pyParseFloat s with
      | some q => rw [pyFloat, hps] at h; exact absurd h (by simp)
      | none =>
          rw [pyFloat, hps] at h
          left; exact ⟨_, by injection h with h'; rw [h']⟩
  | arr xs => right; exact ⟨_, by simpa [pyFloat] using h.symm⟩
  | obj kvs => right; exact ⟨_, by simpa [pyFloat] using h.symm⟩

/-- **C10.**  When the value at a range assertion's path is present but
not float-coercible, evaluation surfaces the coercion error
(`ValueError`/`TypeError`) itself — not the `AssertionError` used for
validation failures — while a numeric string such as `"42"` is coerced
and compared against the bounds as a number. -/
theorem range_assertion_coercion_error (payload : Json) (p : String)
    (hp : p ≠ "") (hpt : pyStrip p = p) (mo Mo : Option ℚ) (e : PyError)
    (hv : json_path_get payload (pySplit p '.') ≠ Json.null)
    (he : pyFloat (json_path_get payload (pySplit p '.')) = .error e) :
    apply_assertions payload [rangeAssertion p (mo.map Json.num) (Mo.map Json.num)] = .error e
    ∧ ((∃ m, e = .valueError m) ∨ (∃ m, e = .typeError m))
    ∧ (∀ m, e ≠ .assertionError m)
    ∧ apply_assertions (Json.obj [("score", Json.str "42")])
        [rangeAssertion "score" (some (Json.num 0)) (some (Json.num 100))] = .ok () := by
  refine ⟨?_, pyFloat_error_kinds _ e he, ?_, by decide⟩
  · rw [range_assertion_eval payload p hp hpt mo Mo, if_neg hv, he]
  · intro m hm
    rcases pyFloat_error_kinds _ e he with ⟨m', h'⟩ | ⟨m', h'⟩ <;> rw [h'] at hm <;> cases hm

theorem range_assertion_coercion_error_witness :
    json_path_get (Json.obj [("score", Json.arr [])]) (pySplit "score" '.') ≠ Json.null
    ∧ pyFloat (json_path_get (Json.obj [("score", Json.arr [])]) (pySplit "score" '.'))
        = .error (.typeError "float() argument must be a string or a real number, not list")
    ∧ apply_assertions (Json.obj [("score", Json.arr [])])
        [rangeAssertion "score" ((some (0 : ℚ)).map Json.num) ((none : Option ℚ).map Json.num)]
        = .error (.typeError "float() argument must be a string or a real number, not list") :=
  ⟨by decide, by decide,
   (range_assertion_coercion_error (Json.obj [("score", Json.arr [])]) "score" (by decide)
     (by decide) (some (0 : ℚ)) none
     (.typeError "float() argument must be a string or a real number, not list")
     (by decide) (by decide)).1⟩

/-- **C9.**  A structured header rule whose `exists` sub-rule is
present but falsy skips the existence check entirely: the rule
`{"exists": v}` with falsy `v` passes for every response header set —
whether the header is present or absent — so structured rules cannot
assert a header's absence. -/
theorem header_exists_falsy_skipped (v : Json) (hv : pyTruthy v = false)
    (name : String) (respHeaders : List (String × String))
    (research : String → String → Bool) :
    apply_expected_headers research respHeaders [(name, Json.obj [("exists", v)])] = .ok () := by
  have h1 : ("exists" : String) ≠ "equals" := by decide
  have h2 : ("exists" : String) ≠ "contains" := by decide
  have h3 : ("exists" : String) ≠ "regex" := by decide
  simp [apply_expected_headers, apply_expected_header, dgetJ, dfindJ, dlookup, hv,
    h1, h2, h3, bind, Except.bind, pure, Except.pure]

theorem header_exists_falsy_skipped_witness :
    apply_expected_headers (fun _ _ => false) []
      [("X-Request-Id", Json.obj [("exists", Json.bool false)])] = .ok () :=
  header_exists_falsy_skipped (Json.bool false) (by decide) "X-Request-Id" []
    (fun _ _ => false)

/-- **C6.**  In `api_key` mode with a configured (non-empty) key and
header name, `apply_headers` returns the input map with exactly the
configured header set to the exact key value: the configured header
maps to the key, every other key's binding is unchanged, the caller's
dict is untouched after the call (the source copies it first), and the
`AuthConfig` — including its token cache — is returned unchanged. -/
theorem api_key_header_application (cfg : AuthConfig) (headers : List (String × String))
    (now : ℚ) (tokenResp : Except PyError Json) (k : String)
    (hmode : cfg.mode = "api_key") (hk : cfg.api_key = some k) (hke : k ≠ "")
    (hh : cfg.api_key_header ≠ "") :
    cfg.apply_headers now tokenResp headers
      = .ok (dset headers cfg.api_key_header k, headers, cfg)
    ∧ dlookup (dset headers cfg.api_key_header k) cfg.api_key_header = some k
    ∧ (∀ k', k' ≠ cfg.api_key_header →
        dlookup (dset headers cfg.api_key_header k) k' = dlookup headers k') := by
  refine ⟨?_, dlookup_dset_self _ _ _, fun k' hk' => dlookup_dset_other _ _ _ _ hk'⟩
  simp [AuthConfig.apply_headers, hmode, hk, hke, hh, strOptTruthy, dcopy]

theorem api_key_header_application_witness :
    (AuthConfig.mk "api_key" (some "k1") "X-API-Key" none none none none none none none).apply_headers
        0 (.error (.networkError "unused")) [("Accept", "application/json")]
      = .ok (dset [("Accept", "application/json")] "X-API-Key" "k1",
             [("Accept", "application/json")],
             AuthConfig.mk "api_key" (some "k1") "X-API-Key" none none none none none none none) :=
  (api_key_header_application
    (AuthConfig.mk "api_key" (some "k1") "X-API-Key" none none none none none none none)
    [("Accept", "application/json")] 0 (.error (.networkError "unused")) "k1"
    rfl rfl (by decide) (by decide)).1

/-- **C8.**  An explicit per-check auth override (`none`,
`api_key`/`apikey`, `oauth2`/`bearer`) constructs a fresh `AuthConfig`
copying only the static credential fields of the default config, with
an empty token cache (`_cached_token = none`) — so an override never
reuses the default's or another override's cached token — while an
empty or `"default"` override returns the run-wide config object
itself, cache included; any explicitly resolved override config starts
with an empty cache. -/
theorem auth_override_fresh_cache (j : Json) (d : AuthConfig) (s : String)
    (hs : pyStripStr (pyOr j (Json.str "")) = .ok s) :
    (pyLower s = "api_key" ∨ pyLower s = "apikey" →
       resolve_auth_override j d = .ok (false,
         { mode := "api_key", api_key := d.api_key, api_key_header := d.api_key_header,
           api_key_query_param := d.api_key_query_param }))
    ∧ (pyLower s = "oauth2" ∨ pyLower s = "bearer" →
       resolve_auth_override j d = .ok (false,
         { mode := "oauth2", bearer_token := d.bearer_token,
           oauth2_token_url := d.oauth2_token_url, oauth2_client_id := d.oauth2_client_id,
           oauth2_client_secret := d.oauth2_client_secret, oauth2_scope := d.oauth2_scope }))
    ∧ (pyLower s = "none" → resolve_auth_override j d = .ok (false, { mode := "none" }))
    ∧ (pyLower s = "" ∨ pyLower s = "default" → resolve_auth_override j d = .ok (true, d))
    ∧ (∀ b cfg, resolve_auth_override j d = .ok (b, cfg) → b = false →
        cfg._cached_token = none) := by
  have e1 : ("api_key" : String) ≠ "" := by decide
  have e2 : ("api_key" : String) ≠ "default" := by decide
  have e3 : ("api_key" : String) ≠ "none" := by decide
  have e4 : ("apikey" : String) ≠ "" := by decide
  have e5 : ("apikey" : String) ≠ "default" := by decide
  have e6 : ("apikey" : String) ≠ "none" := by decide
  have e7 : ("oauth2" : String) ≠ "" := by decide
  have e8 : ("oauth2" : String) ≠ "default" := by decide
  have e9 : ("oauth2" : String) ≠ "none" := by decide
  have e10 : ("oauth2" : String) ≠ "api_key" := by decide
  have e11 : ("oauth2" : String) ≠ "apikey" := by decide
  have e12 : ("bearer" : String) ≠ "" := by decide
  have e13 : ("bearer" : String) ≠ "default" := by decide
  have e14 : ("bearer" : String) ≠ "none" := by decide
  have e15 : ("bearer" : String) ≠ "api_key" := by decide
  have e16 : ("bearer" : String) ≠ "apikey" := by decide
  refine ⟨?_, ?_, ?_, ?_, ?_⟩
  · rintro (h | h) <;>
      simp [resolve_auth_override, hs, h, bind, Except.bind,
        e1, e2, e3, e4, e5, e6]
  · rintro (h | h) <;>
      simp [resolve_auth_override, hs, h, bind, Except.bind,
        e7, e8, e9, e10, e11, e12, e13, e14, e15, e16]
  · intro h
    simp [resolve_auth_override, hs, h, bind, Except.bind]
  · rintro (h | h) <;> simp [resolve_auth_override, hs, h, bind, Except.bind]
  · intro b cfg hres hb
    subst hb
    rw [resolve_auth_override] at hres
    simp only [hs, bind, Except.bind] at hres
    by_cases h1 : pyLower s = "" ∨ pyLower s = "default"
    · rw [if_pos h1] at hres
      cases hres
    · rw [if_neg h1] at hres
      by_cases h2 : pyLower s = "none"
      · rw [if_pos h2] at hres
        cases hres; rfl
      · rw [if_neg h2] at hres
        by_cases h3 : pyLower s = "api_key" ∨ pyLower s = "apikey"
        · rw [if_pos h3] at hres
          cases hres; rfl
        · rw [if_neg h3] at hres
          by_cases h4 : pyLower s = "oauth2" ∨ pyLower s = "bearer"
          · rw [if_pos h4] at hres
            cases hres; rfl
          · rw [if_neg h4] at hres
            cases hres

theorem auth_override_fresh_cache_witness :
    resolve_auth_override (Json.str "api_key")
        { mode := "api_key", api_key := some "k1", api_key_header := "X-API-Key",
          api_key_query_param := none,
          _cached_token := some { access_token := "cached", expires_at := none } }
      = .ok (false,
        { mode := "api_key", api_key := some "k1", api_key_header := "X-API-Key",
          api_key_query_param := none }) :=
  (auth_override_fresh_cache (Json.str "api_key")
      { mode := "api_key", api_key := some "k1", api_key_header := "X-API-Key",
        api_key_query_param := none,
        _cached_token := some { access_token := "cached", expires_at := none } }
      "api_key" (by decide)).1 (Or.inl (by decide))

/-- **C5.**  When the schema reference loads, validation collects all
violations (the reported list is a permutation of everything
`iter_errors` yields), sorts them by the error's location path, and on
any violation raises a single `AssertionError` carrying the schema
reference and at most the first five violation messages joined by
`"; "`; with no violations it returns ok. -/
theorem schema_validation_reporting
    (loadSchema : String → Except PyError (Json → List SchemaViolation))
    (ref : String) (payload : Json) (validator : Json → List SchemaViolation)
    (hl : loadSchema ref = .ok validator) :
    (validator payload = [] → validate_schema loadSchema ref payload = .ok ())
    ∧ (validator payload ≠ [] →
        ∃ sorted, sorted.Perm (validator payload)
          ∧ List.Sorted violationLe sorted
          ∧ ((sorted.take 5).map (fun e => e.message)).length ≤ 5
          ∧ validate_schema loadSchema ref payload
              = .error (.assertionError ("Schema validation failed for " ++ ref ++ ": "
                  ++ String.intercalate "; " ((sorted.take 5).map (fun e => e.message))))) := by
  constructor
  · intro h
    simp [validate_schema, hl, h]
  · intro h
    refine ⟨List.insertionSort violationLe (validator payload),
      List.perm_insertionSort _ _, List.sorted_insertionSort _ _, ?_, ?_⟩
    · simp [List.length_take]
    · have hne : List.insertionSort violationLe (validator payload) ≠ [] := by
        intro hnil
        exact h (List.Perm.eq_nil ((List.perm_insertionSort violationLe _).symm.trans
          (hnil ▸ List.Perm.refl _)))
      simp [validate_schema, hl, hne]

theorem schema_validation_reporting_witness :
    (fun _ => [SchemaViolation.mk [1] "m1", SchemaViolation.mk [0] "m0",
        SchemaViolation.mk [2] "m2"] : Json → List SchemaViolation) Json.null ≠ []
    ∧ ∃ sorted,
        sorted.Perm [SchemaViolation.mk [1] "m1", SchemaViolation.mk [0] "m0",
          SchemaViolation.mk [2] "m2"]
        ∧ List.Sorted violationLe sorted
        ∧ ((sorted.take 5).map (fun e => e.message)).length ≤ 5
        ∧ validate_schema
            (fun _ => .ok (fun _ => [SchemaViolation.mk [1] "m1", SchemaViolation.mk [0] "m0",
              SchemaViolation.mk [2] "m2"])) "schemas/x.json" Json.null
            = .error (.assertionError ("Schema validation failed for " ++ "schemas/x.json"
                ++ ": " ++ String.intercalate "; " ((sorted.take 5).map (fun e => e.message)))) :=
  ⟨by decide,
   (schema_validation_reporting
      (fun _ => .ok (fun _ => [SchemaViolation.mk [1] "m1", SchemaViolation.mk [0] "m0",
        SchemaViolation.mk [2] "m2"]))
      "schemas/x.json" Json.null
      (fun _ => [SchemaViolation.mk [1] "m1", SchemaViolation.mk [0] "m0",
        SchemaViolation.mk [2] "m2"]) rfl).2 (by decide)⟩

/-- **C3.**  For an OAuth2 client-credentials `AuthConfig` without a
static bearer token (and with a token URL configured): a cached,
unexpired token is returned with no token-endpoint exchange and the
cache untouched; an empty or expired cache triggers exactly one
exchange whose token wholesale-replaces the cache.  Consequently two
calls within the expiry-minus-skew window perform exactly one exchange
between them, and a call after expiry performs exactly one more. -/
theorem oauth2_token_reuse (cfg : AuthConfig) (now : ℚ) (tokenResp : Except PyError Json)
    (hmode : cfg.mode = "oauth2") (hbt : ¬ strOptTruthy cfg.bearer_token)
    (hurl : strOptTruthy cfg.oauth2_token_url) :
    (∀ t, cfg._cached_token = some t → t.is_expired now = false →
        cfg.get_bearer_token now tokenResp = .ok (some t.access_token, cfg, 0))
    ∧ (∀ tk,
        fetch_client_credentials_token now cfg.oauth2_client_id cfg.oauth2_client_secret
            tokenResp = .ok tk →
        (cfg._cached_token = none ∨
            ∃ t, cfg._cached_token = some t ∧ t.is_expired now = true) →
        cfg.get_bearer_token now tokenResp
          = .ok (some tk.access_token, { cfg with _cached_token := some tk }, 1))
    ∧ (∀ tk now₂ resp₂, cfg._cached_token = none →
        fetch_client_credentials_token now cfg.oauth2_client_id cfg.oauth2_client_secret
            tokenResp = .ok tk →
        tk.is_expired now₂ = false →
        cfg.get_bearer_token now tokenResp
            = .ok (some tk.access_token, { cfg with _cached_token := some tk }, 1)
        ∧ ({ cfg with _cached_token := some tk } : AuthConfig).get_bearer_token now₂ resp₂
            = .ok (some tk.access_token, { cfg with _cached_token := some tk }, 0))
    ∧ (∀ tk now₃ resp₃ tk₃, cfg._cached_token = none →
        fetch_client_credentials_token now cfg.oauth2_client_id cfg.oauth2_client_secret
            tokenResp = .ok tk →
        tk.is_expired now₃ = true →
        fetch_client_credentials_token now₃ cfg.oauth2_client_id cfg.oauth2_client_secret
            resp₃ = .ok tk₃ →
        ({ cfg with _cached_token := some tk } : AuthConfig).get_bearer_token now₃ resp₃
          = .ok (some tk₃.access_token, { cfg with _cached_token := some tk₃ }, 1)) := by
  refine ⟨?_, ?_, ?_, ?_⟩
  · intro t hc hexp
    simp [AuthConfig.get_bearer_token, hbt, hurl, hc, hexp]
  · intro tk hfetch hcache
    rcases hcache with hc | ⟨t, hc, hexp⟩
    · simp [AuthConfig.get_bearer_token, hbt, hurl, hc, hfetch]
    · simp [AuthConfig.get_bearer_token, hbt, hurl, hc, hexp, hfetch]
  · intro tk now₂ resp₂ hc hfetch hfresh
    constructor
    · simp [AuthConfig.get_bearer_token, hbt, hurl, hc, hfetch]
    · simp [AuthConfig.get_bearer_token, hbt, hurl, hfresh]
  · intro tk now₃ resp₃ tk₃ hc hfetch hexp hfetch₃
    simp [AuthConfig.get_bearer_token, hbt, hurl, hexp, hfetch₃]

/-- Concrete OAuth2 client-credentials fixture for the token-reuse
scenario. -/
def oauthCfgW : AuthConfig :=
  { mode := "oauth2", oauth2_token_url := some "http://sso/token",
    oauth2_client_id := some "cid", oauth2_client_secret := some "csec" }

/-- Token-endpoint JSON for the fixture: `tok-1`, one-hour expiry. -/
def tokenRespW : Except PyError Json :=
  .ok (Json.obj [("access_token", Json.str "tok-1"), ("expires_in", Json.num 3600)])

/-- The token the fixture exchange mints at `now = 0`. -/
def tokW : OAuth2Token :=
  { access_token := "tok-1", token_type := "Bearer", expires_at := some ((0 : ℚ) + 3600) }

theorem oauth2_token_reuse_witness :
    oauthCfgW.get_bearer_token 0 tokenRespW
        = .ok (some tokW.access_token, { oauthCfgW with _cached_token := some tokW }, 1)
    ∧ ({ oauthCfgW with _cached_token := some tokW } : AuthConfig).get_bearer_token 5
          (.error (.networkError "down"))
        = .ok (some tokW.access_token, { oauthCfgW with _cached_token := some tokW }, 0) :=
  (oauth2_token_reuse oauthCfgW 0 tokenRespW rfl (by decide) (by decide)).2.2.1
    tokW 5 (.error (.networkError "down")) rfl (by rfl)
    (by simp [tokW, OAuth2Token.is_expired]; norm_num)

theorem authStateAt_zero (ctx : RunCtx) (st : AuthConfig) (l : List Check) :
    authStateAt ctx st l 0 = st := by
  cases l <;> rfl

/-- **C1.**  `run_contract_checks` is fail-fast and order-preserving:
either every check passes and the caller gets the full result list with
exactly one `HttpResult` per check in declaration order (each produced
by processing that check under the auth state the earlier checks left),
or the run returns the error of the first failing check, exactly the
checks up to and including that one were executed, every earlier check
succeeded, and no partial result list is returned. -/
theorem run_contract_checks_fail_fast (ctx : RunCtx) (st : AuthConfig) (checks : List Check) :
    (∀ rs, run_contract_checks ctx st checks = .ok rs →
        rs.length = checks.length
        ∧ executedChecks ctx st checks = checks.length
        ∧ ∀ i, i < checks.length →
            ∃ c r st', checks[i]? = some c ∧ rs[i]? = some r
              ∧ process_check ctx (authStateAt ctx st checks i) c = .ok (r, st'))
    ∧ (∀ e, run_contract_checks ctx st checks = .error e →
        ∃ i c, executedChecks ctx st checks = i + 1
          ∧ i < checks.length
          ∧ checks[i]? = some c
          ∧ process_check ctx (authStateAt ctx st checks i) c = .error e
          ∧ ∀ j, j < i → ∃ cj r st', checks[j]? = some cj
              ∧ process_check ctx (authStateAt ctx st checks j) cj = .ok (r, st')) := by
  induction checks generalizing st with
  | nil =>
      constructor
      · intro rs h
        simp only [run_contract_checks, runChecksCounted] at h
        injection h with h
        subst h
        exact ⟨rfl, rfl, fun i hi => absurd hi (Nat.not_lt_zero i)⟩
      · intro e h
        simp only [run_contract_checks, runChecksCounted] at h
        cases h
  | cons c rest ih =>
      cases hpc : process_check ctx st c with
      | error e0 =>
          constructor
          · intro rs h
            simp only [run_contract_checks, runChecksCounted, hpc] at h
            cases h
          · intro e h
            simp only [run_contract_checks, runChecksCounted, hpc] at h
            injection h with h
            subst h
            refine ⟨0, c, ?_, Nat.succ_pos _, by simp, ?_, fun j hj => absurd hj (Nat.not_lt_zero j)⟩
            · simp [executedChecks, runChecksCounted, hpc]
            · rw [authStateAt_zero]; exact hpc
      | ok rp =>
          obtain ⟨r, st'⟩ := rp
          rcases hq : runChecksCounted ctx st' rest with ⟨res, n⟩
          have ihr := ih st'
          cases res with
          | ok rs' =>
              have hok := ihr.1 rs' (by simp [run_contract_checks, hq])
              constructor
              · intro rs h
                simp only [run_contract_checks, runChecksCounted, hpc, hq] at h
                injection h with h
                subst h
                have hexec : executedChecks ctx st' rest = n := by
                  simp [executedChecks, hq]
                refine ⟨by simp [hok.1], ?_, ?_⟩
                · have : n = rest.length := by rw [← hexec]; exact hok.2.1
                  simp [executedChecks, runChecksCounted, hpc, hq, this]
                · intro i hi
                  cases i with
                  | zero =>
                      exact ⟨c, r, st', by simp, by simp, by rw [authStateAt_zero]; exact hpc⟩
                  | succ i' =>
                      obtain ⟨ci, ri, sti, hci, hri, hpi⟩ :=
                        hok.2.2 i' (Nat.lt_of_succ_lt_succ hi)
                      exact ⟨ci, ri, sti, by simpa using hci, by simpa using hri,
                        by simpa [authStateAt, hpc] using hpi⟩
              · intro e h
                simp only [run_contract_checks, runChecksCounted, hpc, hq] at h
                cases h
          | error e' =>
              have herr := ihr.2 e' (by simp [run_contract_checks, hq])
              obtain ⟨i', c', hn, hlt, hci, hpe, hprev⟩ := herr
              have hexec : executedChecks ctx st' rest = n := by simp [executedChecks, hq]
              constructor
              · intro rs h
                simp only [run_contract_checks, runChecksCounted, hpc, hq] at h
                cases h
              · intro e h
                simp only [run_contract_checks, runChecksCounted, hpc, hq] at h
                injection h with h
                subst h
                refine ⟨i' + 1, c', ?_, Nat.succ_lt_succ hlt, by simpa using hci,
                  by simpa [authStateAt, hpc] using hpe, ?_⟩
                · have : n = i' + 1 := by rw [← hexec]; exact hn
                  simp [executedChecks, runChecksCounted, hpc, hq, this]
                · intro j hj
                  cases j with
                  | zero =>
                      exact ⟨c, r, st', by simp, by rw [authStateAt_zero]; exact hpc⟩
                  | succ j' =>
                      obtain ⟨cj, rj, stj, hcj, hpj⟩ := hprev j' (Nat.lt_of_succ_lt_succ hj)
                      exact ⟨cj, rj, stj, by simpa using hcj,
                        by simpa [authStateAt, hpc] using hpj⟩

/-- A concrete run context: no env vars, a healthy SUT returning
`{"ok": true}` with status 200, no token endpoint, no schemas on disk. -/
def ctxW : RunCtx where
  env := fun _ => none
  base_url := "http://sut"
  base_headers := [("Accept", "application/json")]
  now := 0
  tokenResp := .error (.networkError "no token endpoint configured")
  respond := fun _ _ _ => .ok
    { status_code := 200
      headers := [("Content-Type", "application/json")]
      body := some (Json.obj [("ok", Json.bool true)]) }
  loadSchema := fun p => .error (.fileNotFoundError p)
  research := fun _ _ => false

/-- `GET /healthz`, all other check fields defaulted. -/
def healthCheckW : Check := { path := Json.str "/healthz" }

theorem run_contract_checks_fail_fast_witness :
    run_contract_checks ctxW { mode := "none" } [healthCheckW]
        = .ok [{ url := "http://sut/healthz", status_code := 200,
                 json := Json.obj [("ok", Json.bool true)] }]
    ∧ executedChecks ctxW { mode := "none" } [healthCheckW] = 1 :=
  have h : run_contract_checks ctxW { mode := "none" } [healthCheckW]
      = .ok [{ url := "http://sut/healthz", status_code := 200,
               json := Json.obj [("ok", Json.bool true)] }] := by decide
  ⟨h, by
    have := ((run_contract_checks_fail_fast ctxW { mode := "none" } [healthCheckW]).1 _ h).2.1
    simpa using this⟩
